import Mathlib

/-
  Shallow embedding of the tdd-guard JUnit5 reporter core:
  the test-execution telemetry collector (TestResultCollector),
  the result writer (TestJsonWriter) and the five fact-based
  pattern detectors, together with theorems settling the frozen
  claims about this code.

  Machine integers (Java `int`/`long`) are modelled as `Nat`/`Int`;
  Java `double` arithmetic in the detectors is modelled over `ℚ`
  (the concrete values involved stay far from any rounding boundary).
  Java strings are modelled as Lean `String`/`List Char`; the file
  system is modelled as the set (list) of existing paths, and file
  contents are carried alongside paths where the code reads files.
-/

namespace TddGuard

/-! ### Java-style string primitives -/

/-- Java regex `\s` (whitespace) character class, and `String.trim`'s class. -/
def javaSpace (c : Char) : Bool :=
  c = ' ' || c = '\t' || c = '\n' || c = '\x0b' || c = '\x0c' || c = '\r'

/-- Java regex `\w` (word) character class: `[A-Za-z0-9_]`. -/
def javaWordChar (c : Char) : Bool :=
  ('a' ≤ c && c ≤ 'z') || ('A' ≤ c && c ≤ 'Z') || ('0' ≤ c && c ≤ '9') || c = '_'

/-- `pat` is a leading segment of `s` (Java `String.startsWith`). -/
def seqLeading : List Char → List Char → Bool
  | [], _ => true
  | _ :: _, [] => false
  | p :: ps, c :: cs => p == c && seqLeading ps cs

/-- `pat` occurs contiguously inside `s` (Java `String.contains`). -/
def seqContains (pat : List Char) : List Char → Bool
  | [] => seqLeading pat []
  | c :: cs => seqLeading pat (c :: cs) || seqContains pat cs

/-- `pat` is a trailing segment of `s` (Java `String.endsWith`). -/
def seqTrailing (pat s : List Char) : Bool :=
  seqLeading pat.reverse s.reverse

def strContainsSub (s pat : String) : Bool := seqContains pat.toList s.toList

def strEndsWithSub (s pat : String) : Bool := seqTrailing pat.toList s.toList

def strStartsWithSub (s pat : String) : Bool := seqLeading pat.toList s.toList

/-- Java `String.trim` (both ends), on char sequences. -/
def seqTrim (s : List Char) : List Char :=
  ((s.dropWhile javaSpace).reverse.dropWhile javaSpace).reverse

/-- The `[A-Z]` character class. -/
def isUpperAZ (c : Char) : Bool := 'A' ≤ c && c ≤ 'Z'

/-- The `[A-Za-z0-9_]` character class used by the detector regexes. -/
def isIdentChar (c : Char) : Bool :=
  ('A' ≤ c && c ≤ 'Z') || ('a' ≤ c && c ≤ 'z') || ('0' ≤ c && c ≤ '9') || c = '_'

/-! ### Data model (model/TestCase.java, model/TestSummary.java, model/TestFailure.java) -/

/-- `model.TestCase`: plain data holder `{name, file, status, duration, displayName}`. -/
structure TestCase where
  name : String
  file : String
  status : String
  duration : Int
  displayName : String
deriving Repr, DecidableEq

/-- `model.TestSummary`: plain data holder `{total, passed, failed, skipped}`. -/
structure TestSummary where
  total : Nat
  passed : Nat
  failed : Nat
  skipped : Nat
deriving Repr, DecidableEq

/-- `model.TestFailure`: plain data holder `{name, file, message, stack}`. -/
structure TestFailure where
  name : String
  file : String
  message : String
  stack : String
deriving Repr, DecidableEq

/-! ### TestJsonWriter.calculateSummary -/

/-- Embeds `TestJsonWriter.calculateSummary`: `total` is the list size and
each count filters the list on string equality with the status literal. -/
def calculateSummary (tests : List TestCase) : TestSummary :=
  { total := tests.length
    passed := (tests.filter (fun t => t.status == "passed")).length
    failed := (tests.filter (fun t => t.status == "failed")).length
    skipped := (tests.filter (fun t => t.status == "skipped")).length }

/-! ### TestJsonWriter.write

The file system is modelled as the list of paths that currently exist.
`write` is parametrised by two flags standing for the fallible steps:
`serOk` — the gson serialization inside the try-with-resources completes;
`moveOk` — the final `Files.move` succeeds.  The try-with-resources block
closes the writer but contains no cleanup of the temporary file. -/

abbrev FileSet := List String

def addFile (fs : FileSet) (p : String) : FileSet :=
  if p ∈ fs then fs else p :: fs

def removeFile (fs : FileSet) (p : String) : FileSet :=
  fs.filter (fun q => q != p)

/-- `outputPath.resolveSibling(outputPath.getFileName() + ".tmp")`. -/
def writerTempPath (outputPath : String) : String := outputPath ++ ".tmp"

structure WriteOutcome where
  fs : FileSet
  success : Bool
deriving Repr, DecidableEq

/-- Embeds `TestJsonWriter.write`: create the sibling temp file
(`Files.newBufferedWriter`), serialize into it, then atomically move it
onto the output path (`Files.move` with `REPLACE_EXISTING`).  An exception
from serialization or from the move propagates (`success = false`) with
the temp file in whatever state the steps left it; there is no
catch/finally deleting the temp file. -/
def jsonWriterWrite (fs : FileSet) (outputPath : String) (serOk moveOk : Bool) :
    WriteOutcome :=
  let temp := writerTempPath outputPath
  let fs1 := addFile fs temp
  if serOk then
    if moveOk then
      ⟨addFile (removeFile fs1 temp) outputPath, true⟩
    else ⟨fs1, false⟩
  else ⟨fs1, false⟩

/-! ### TestResultCollector -/

/-- `org.junit.platform.engine.TestExecutionResult.Status`. -/
inductive JStatus where
  | SUCCESSFUL
  | FAILED
  | ABORTED
deriving Repr, DecidableEq

/-- A Java `Throwable` as the collector observes it: nullable message,
simple class name, and the text `printStackTrace` would produce. -/
structure JThrowable where
  message : Option String
  simpleName : String
  stackTraceText : String
deriving Repr, DecidableEq

/-- `org.junit.platform.engine.TestExecutionResult`: a status plus an
optional throwable. -/
structure TestExecutionResult where
  status : JStatus
  throwable : Option JThrowable
deriving Repr, DecidableEq

/-- A test identifier's source: `MethodSource` or `ClassSource`. -/
inductive TestSource where
  | methodSource (className methodName : String)
  | classSource (className : String)
deriving Repr, DecidableEq

/-- `org.junit.platform.launcher.TestIdentifier` as the collector uses it. -/
structure TestIdentifier where
  isTest : Bool
  uniqueId : String
  displayName : String
  source : Option TestSource
deriving Repr, DecidableEq

/-- `TestResultCollector.mapStatus`.  The Java `switch` also carries a
`default -> "unknown"` arm, unreachable for the three-valued enum. -/
def mapStatus : JStatus → String
  | .SUCCESSFUL => "passed"
  | .FAILED => "failed"
  | .ABORTED => "skipped"

/-- The collector's environment: the project root, the directory lists the
`SourceDirectoryResolver` produces, and `Files.exists` on this machine. -/
structure ResolverEnv where
  projectRoot : String
  testSourceDirs : List String
  mainSourceDirs : List String
  fileExistsAt : String → Bool

/-- `Path.resolve` on the string paths of this model. -/
def resolvePath (base child : String) : String := base ++ "/" ++ child

/-- `projectRoot.relativize(path)`: drop the root and its separator. -/
def relativizePath (root p : String) : String :=
  String.mk (p.toList.drop (root.toList.length + 1))

/-- `className.replace('.', '/') + ".java"`. -/
def classNameToRelativePath (className : String) : String :=
  String.mk (className.toList.map (fun c => if c = '.' then '/' else c)) ++ ".java"

/-- The `for (String dir : directories)` loop of
`TestResultCollector.classNameToFilePath`: first directory whose resolved
path exists wins. -/
def tryDirectories (env : ResolverEnv) (rel : String) : List String → Option String
  | [] => none
  | dir :: rest =>
    if env.fileExistsAt (resolvePath (resolvePath env.projectRoot dir) rel)
    then some (dir ++ "/" ++ rel)
    else tryDirectories env rel rest

/-- The candidate directory list after the `directories.isEmpty()`
default substitution in `classNameToFilePath`. -/
def effectiveDirectories (env : ResolverEnv) (isTestClass : Bool) : List String :=
  let directories :=
    if isTestClass then env.testSourceDirs else env.mainSourceDirs
  let defaultDirectories :=
    if isTestClass then ["src/test/java", "src/test/kotlin"]
    else ["src/main/java", "src/main/kotlin"]
  if directories.isEmpty then defaultDirectories else directories

/-- Embeds `TestResultCollector.classNameToFilePath`, including the final
hardcoded fallback the comment marks as unreachable. -/
def classNameToFilePath (env : ResolverEnv) (className : String) : String :=
  let relativePath := classNameToRelativePath className
  let isTestClass :=
    strEndsWithSub className "Test" || strEndsWithSub className "Tests"
  let directories := effectiveDirectories env isTestClass
  match tryDirectories env relativePath directories with
  | some path => path
  | none =>
    match directories with
    | dir :: _ => dir ++ "/" ++ relativePath
    | [] =>
      if isTestClass then "src/test/java/" ++ relativePath
      else "src/main/java/" ++ relativePath

/-- Follows the spec's words for path resolution (C9): return the first
candidate directory for which the computed path exists on disk, joined
with the path; if none exists, the first candidate directory joined with
the computed path. -/
def specPathLookup (env : ResolverEnv) (candidates : List String) (rel : String) :
    String :=
  match candidates.find?
      (fun d => env.fileExistsAt (resolvePath (resolvePath env.projectRoot d) rel)) with
  | some d => d ++ "/" ++ rel
  | none => (candidates.headD "") ++ "/" ++ rel

/-- `TestResultCollector.extractFilePath`. -/
def extractFilePath (env : ResolverEnv) (test : TestIdentifier) : String :=
  match test.source with
  | none => ""
  | some (.methodSource className _) => classNameToFilePath env className
  | some (.classSource className) => classNameToFilePath env className

/-- `TestResultCollector.extractMethodName`. -/
def extractMethodName (test : TestIdentifier) : String :=
  match test.source with
  | none => test.displayName
  | some (.methodSource _ methodName) => methodName
  | some (.classSource _) => test.displayName

/-- The collector's mutable state: the outcome list, failure list and
start-time map (`ConcurrentHashMap` modelled as an association list whose
head entry shadows older ones, matching `put`/`getOrDefault`). -/
structure CollectorState where
  tests : List TestCase
  failures : List TestFailure
  testStartTimes : List (String × Int)

/-- `ConcurrentHashMap.put`. -/
def mapPut (m : List (String × Int)) (k : String) (v : Int) : List (String × Int) :=
  (k, v) :: m

/-- `ConcurrentHashMap.getOrDefault`. -/
def mapGetOrDefault (m : List (String × Int)) (k : String) (d : Int) : Int :=
  match m.lookup k with
  | some v => v
  | none => d

/-- `TestResultCollector.recordTestStart`; `now` models
`System.currentTimeMillis()`. -/
def recordTestStart (st : CollectorState) (test : TestIdentifier) (now : Int) :
    CollectorState :=
  if !test.isTest then st
  else { st with testStartTimes := mapPut st.testStartTimes test.uniqueId now }

/-- `TestResultCollector.recordTestFinish`. -/
def recordTestFinish (env : ResolverEnv) (st : CollectorState)
    (test : TestIdentifier) (result : TestExecutionResult) (now : Int) :
    CollectorState :=
  if !test.isTest then st
  else
    let uniqueId := test.uniqueId
    let startTime := mapGetOrDefault st.testStartTimes uniqueId now
    let duration := now - startTime
    let status := mapStatus result.status
    let filePath := extractFilePath env test
    let methodName := extractMethodName test
    let testCase : TestCase :=
      ⟨methodName, filePath, status, duration, test.displayName⟩
    let tests' := st.tests ++ [testCase]
    let failures' :=
      if status == "failed" then
        match result.throwable with
        | some throwable =>
          st.failures ++
            [⟨methodName, filePath,
              (match throwable.message with
               | some m => m
               | none => throwable.simpleName),
              throwable.stackTraceText⟩]
        | none => st.failures
      else st.failures
    { st with tests := tests', failures := failures' }

/-- `TestResultCollector.recordSkipped` (the `reason` argument is unused
in the source as well). -/
def recordSkipped (env : ResolverEnv) (st : CollectorState)
    (test : TestIdentifier) (reason : String) : CollectorState :=
  if !test.isTest then st
  else
    { st with
      tests := st.tests ++
        [⟨extractMethodName test, extractFilePath env test, "skipped", 0,
          test.displayName⟩] }

/-! ### GradleBuildOptimizationDetector

Java `double` arithmetic is modelled over `ℚ`.  The one divergence is
`0.0 / 0.0 = NaN` in Java versus `0 / 0 = 0` in `ℚ`, reachable only for
an all-zero duration history.  File contents the detector reads
(`gradle.properties`, `build.gradle`) are modelled as a path→content
association list.  The prose `message`/`recommendation` builders carry no
claim-relevant behaviour and are not reproduced. -/

/-- `Files.readString` over the modelled project tree: content of the
file at `p`, when it exists. -/
def fileLookup (files : List (String × String)) (p : String) : Option String :=
  (files.find? (fun f => f.1 == p)).map (fun f => f.2)

/-- `stream().average().orElse(0.0)`. -/
def buildAverage (times : List ℚ) : ℚ :=
  if times.isEmpty then 0 else times.sum / times.length

/-- `GradleBuildOptimizationDetector.calculateVariancePercent`:
maximum absolute deviation from the average, as a percentage of the
average (`max().orElse(0.0)` folds from zero). -/
def calculateVariancePercent (times : List ℚ) (avg : ℚ) : ℚ :=
  let maxDeviation := (times.map (fun t => |t - avg|)).foldr max 0
  (maxDeviation / avg) * 100

/-- Variance percentage of a history, at its own average. -/
def variancePercentOf (times : List ℚ) : ℚ :=
  calculateVariancePercent times (buildAverage times)

/-- `GradleBuildOptimizationDetector.isIncrementalCompilationEnabled`. -/
def isIncrementalCompilationEnabled (root : String)
    (files : List (String × String)) : Bool :=
  match fileLookup files (resolvePath root "gradle.properties") with
  | none => false
  | some content =>
    strContainsSub content "org.gradle.caching=true" &&
    !(strContainsSub content "org.gradle.caching=false")

/-- `GradleBuildOptimizationDetector.detectAnnotationProcessors`:
`build.gradle` first, else `build.gradle.kts`, else none; then the fixed
substring→label lookup table. -/
def detectBuildProcessors (root : String) (files : List (String × String)) :
    List String :=
  let chosen :=
    match fileLookup files (resolvePath root "build.gradle") with
    | some c => some c
    | none => fileLookup files (resolvePath root "build.gradle.kts")
  match chosen with
  | none => []
  | some content =>
    (if strContainsSub content "lombok" then ["Lombok"] else []) ++
    (if strContainsSub content "mapstruct" then ["MapStruct"] else []) ++
    (if strContainsSub content "jpa-modelgen" then ["JPA Metamodel"] else []) ++
    (if strContainsSub content "querydsl" then ["QueryDSL"] else [])

/-- The feedback record `GradleBuildOptimizationDetector.detect` builds;
`variancePercent` is kept as the exact rational the source would format
with `"%.1f"`. -/
structure GradleFeedback where
  category : String
  severity : String
  title : String
  variancePercent : ℚ
  incrementalEnabled : Bool
  processorLabels : List String
  buildTimes : List ℚ
deriving Repr, DecidableEq

/-- Embeds `GradleBuildOptimizationDetector.detect`:
`MINIMUM_BUILD_HISTORY = 3`, `VARIANCE_THRESHOLD = 20.0`. -/
def gradleDetect (buildTimes : List ℚ) (root : String)
    (files : List (String × String)) : Option GradleFeedback :=
  if buildTimes.length < 3 then none
  else
    let avgTime := buildAverage buildTimes
    let variance := calculateVariancePercent buildTimes avgTime
    if variance ≤ 20 then none
    else
      let incrementalEnabled := isIncrementalCompilationEnabled root files
      let processors := detectBuildProcessors root files
      some ⟨"gradle-incremental-compilation", "info",
            "Gradle incremental compilation issue detected",
            variance, incrementalEnabled, processors, buildTimes⟩

/-! ### MockOveruseDetector

Embedded from the `MockOveruseDetector` class in the source (appended in
`patterns/model/EducationalFeedback.java` after the document separator).
Test files are the SourceAnalyzer's output, modelled as
(absolute path, content) pairs in walk order. -/

/-- Java `String.format("%.2f", ·)` on a non-negative value
(HALF_UP to two decimals). -/
def twoDecimalString (q : ℚ) : String :=
  let n : Int := ⌊q * 100 + 1 / 2⌋
  let frac := (n % 100).toNat
  toString (n / 100) ++ "." ++
    (if frac < 10 then "0" ++ toString frac else toString frac)

/-- `countMatches(MOCK_ANNOTATION, ·)` with `MOCK_ANNOTATION = @Mock\b`:
an occurrence of `@Mock` whose next character is not a word character
(so `@MockBean` is not counted here); scanning resumes after each
match.  Fuel-driven, `fuel = length` suffices. -/
def countMockAnnGo : Nat → List Char → Nat
  | 0, _ => 0
  | _, [] => 0
  | fuel + 1, c :: cs =>
    if seqLeading "@Mock".toList (c :: cs) &&
        (match (c :: cs).drop 5 with
         | [] => true
         | d :: _ => !javaWordChar d) then
      1 + countMockAnnGo fuel ((c :: cs).drop 5)
    else countMockAnnGo fuel cs

def countMockAnn (content : String) : Nat :=
  countMockAnnGo content.toList.length content.toList

/-- `countMatches(MOCKBEAN_ANNOTATION, ·)` with
`MOCKBEAN_ANNOTATION = @MockBean\b`. -/
def countMockBeanGo : Nat → List Char → Nat
  | 0, _ => 0
  | _, [] => 0
  | fuel + 1, c :: cs =>
    if seqLeading "@MockBean".toList (c :: cs) &&
        (match (c :: cs).drop 9 with
         | [] => true
         | d :: _ => !javaWordChar d) then
      1 + countMockBeanGo fuel ((c :: cs).drop 9)
    else countMockBeanGo fuel cs

def countMockBean (content : String) : Nat :=
  countMockBeanGo content.toList.length content.toList

/-- `countMatches(MOCKITO_MOCK_CALL, ·)` with
`MOCKITO_MOCK_CALL = \bmock\(` — the boundary looks at the character
before the match, tracked as `prev`. -/
def countMockCallGo : Nat → Option Char → List Char → Nat
  | 0, _, _ => 0
  | _, _, [] => 0
  | fuel + 1, prev, c :: cs =>
    if (match prev with
        | none => true
        | some p => !javaWordChar p) &&
        seqLeading "mock(".toList (c :: cs) then
      1 + countMockCallGo fuel (some '(') ((c :: cs).drop 5)
    else countMockCallGo fuel (some c) cs

def countMockCall (content : String) : Nat :=
  countMockCallGo content.toList.length none content.toList

/-- One attempt of
`MOCK_FIELD_PATTERN = @Mock(?:Bean)?\s+(?:private\s+)?([A-Z][A-Za-z0-9_]*)\s+`
anchored at the head: returns the captured type name and the match
length.  Each optional/greedy part is followed by a disjoint character
class, so matching is deterministic. -/
def tryMockFieldAt (cs : List Char) : Option (String × Nat) :=
  if seqLeading "@Mock".toList cs then
    let rest1 := cs.drop 5
    let optLen := if seqLeading "Bean".toList rest1 then 4 else 0
    let afterOpt := rest1.drop optLen
    let ws1 := afterOpt.takeWhile javaSpace
    if ws1.isEmpty then none
    else
      let afterWs1 := afterOpt.dropWhile javaSpace
      let privTaken := seqLeading "private".toList afterWs1 &&
        !(((afterWs1.drop 7).takeWhile javaSpace).isEmpty)
      let privLen :=
        if privTaken then 7 + ((afterWs1.drop 7).takeWhile javaSpace).length
        else 0
      match afterWs1.drop privLen with
      | c :: rest2 =>
        if isUpperAZ c then
          let identTail := rest2.takeWhile isIdentChar
          let ws2 := (rest2.dropWhile isIdentChar).takeWhile javaSpace
          if ws2.isEmpty then none
          else
            some (String.mk (c :: identTail),
              5 + optLen + ws1.length + privLen + 1 + identTail.length
                + ws2.length)
        else none
      | [] => none
  else none

/-- The `while (fieldMatcher.find())` loop over `MOCK_FIELD_PATTERN`. -/
def scanMockFields : Nat → List Char → List String
  | 0, _ => []
  | _, [] => []
  | fuel + 1, c :: cs =>
    match tryMockFieldAt (c :: cs) with
    | some (t, n) => t :: scanMockFields fuel ((c :: cs).drop n)
    | none => scanMockFields fuel cs

/-- One attempt of
`MOCKITO_PATTERN = mock\(([A-Z][A-Za-z0-9_]*)\.class` anchored at the
head (no leading boundary in this pattern). -/
def tryMockitoAt (cs : List Char) : Option (String × Nat) :=
  if seqLeading "mock(".toList cs then
    match cs.drop 5 with
    | c :: rest =>
      if isUpperAZ c then
        let identTail := rest.takeWhile isIdentChar
        if seqLeading ".class".toList (rest.dropWhile isIdentChar) then
          some (String.mk (c :: identTail), 5 + 1 + identTail.length + 6)
        else none
      else none
    | [] => none
  else none

/-- The `while (mockitoMatcher.find())` loop over `MOCKITO_PATTERN`. -/
def scanMockitoCalls : Nat → List Char → List String
  | 0, _ => []
  | _, [] => []
  | fuel + 1, c :: cs =>
    match tryMockitoAt (c :: cs) with
    | some (t, n) => t :: scanMockitoCalls fuel ((c :: cs).drop n)
    | none => scanMockitoCalls fuel cs

/-- `MockOveruseDetector.extractMockedTypes`: field-pattern captures
first, then Mockito-call captures. -/
def extractMockedTypes (content : String) : List String :=
  scanMockFields content.toList.length content.toList ++
  scanMockitoCalls content.toList.length content.toList

/-- `typeName.matches("[A-Z][a-z]+")` (full match). -/
def isSingleCapWord (s : String) : Bool :=
  match s.toList with
  | c :: rest =>
    isUpperAZ c && !rest.isEmpty && rest.all (fun d => 'a' ≤ d && d ≤ 'z')
  | [] => false

/-- `MockOveruseDetector.isLikelyValueObject`. -/
def isLikelyValueObject (typeName : String) : Bool :=
  strEndsWithSub typeName "Id" || strEndsWithSub typeName "Value" ||
  typeName == "Money" || typeName == "Amount" || typeName == "Email" ||
  typeName == "Address" || isSingleCapWord typeName

/-- `LinkedHashSet.add`: insertion order, no duplicates. -/
def addUnique (l : List String) (s : String) : List String :=
  if s ∈ l then l else l ++ [s]

/-- The body of the detector's per-file loop: add the file's three
pattern counts to `mockCount`, and for each extracted type that is a
likely value object, add it to the set and record the first example
file. -/
def mockScanFile (acc : Nat × List String × Option String) (root : String)
    (f : String × String) : Nat × List String × Option String :=
  let withCount : Nat × List String × Option String :=
    (acc.1 + countMockAnn f.2 + countMockBean f.2 + countMockCall f.2,
     acc.2.1, acc.2.2)
  (extractMockedTypes f.2).foldl
    (fun acc2 t =>
      if isLikelyValueObject t then
        (acc2.1, addUnique acc2.2.1 t,
          match acc2.2.2 with
          | some e => some e
          | none => some (relativizePath root f.1))
      else acc2)
    withCount

/-- The accumulated (mockCount, valueObjectMocks, exampleFile) after the
detector's loop over all test files. -/
def mockScanOf (root : String) (testFiles : List (String × String)) :
    Nat × List String × Option String :=
  testFiles.foldl (fun acc f => mockScanFile acc root f) (0, [], none)

/-- The feedback record `MockOveruseDetector.detect` builds; `ratio` is
the `String.format("%.2f", ratio)` evidence string, `exampleFile`
mirrors the nullable field. -/
structure MockFeedback where
  category : String
  severity : String
  title : String
  mockCount : Nat
  testCount : Nat
  ratio : String
  valueObjectMocks : List String
  exampleFile : Option String
deriving Repr, DecidableEq

/-- Embeds `MockOveruseDetector.detect`:
`testCount = testResults.summary.total`; no feedback when `testCount`
is 0; `ratio = (double) mockCount / testCount`; no feedback when
`ratio <= MOCK_RATIO_THRESHOLD && valueObjectMocks.isEmpty()`
(`MOCK_RATIO_THRESHOLD = 2.0`). -/
def mockOveruseDetect (root : String) (testFiles : List (String × String))
    (total : Nat) : Option MockFeedback :=
  let scan := mockScanOf root testFiles
  if total = 0 then none
  else
    let ratio : ℚ := (scan.1 : ℚ) / (total : ℚ)
    if ratio ≤ 2 ∧ scan.2.1 = [] then none
    else
      some ⟨"mock-overuse", "warning", "High mock usage detected",
            scan.1, total, twoDecimalString ratio, scan.2.1, scan.2.2⟩

/-- A test-file body holding `n` non-value-object `@Mock` declarations
(the `x` field name is lowercase, so the field pattern captures no type
name). -/
def mockLines (n : Nat) : String :=
  String.join (List.replicate n "@Mock x;\n")

/-! ### MissingIsolationDetector — the port regex

`PORT_PATTERN = \b([0-9]{4,5})\b`: with Java word boundaries, the
matches of a repeated `find()` loop are exactly the maximal runs of word
characters that consist solely of digits and have length 4 or 5 (a 4- or
5-digit slice of a longer word run has a word character on at least one
side, so a `\b` fails there). -/

def isDigitChar (c : Char) : Bool := '0' ≤ c && c ≤ '9'

/-- Splits a character sequence into its maximal runs of Java word
characters, in order; fuel-driven (`fuel = length` suffices: each step
consumes at least one character). -/
def wordRunsGo : Nat → List Char → List (List Char)
  | 0, _ => []
  | _, [] => []
  | fuel + 1, c :: cs =>
    if javaWordChar c then
      ((c :: cs).takeWhile javaWordChar)
        :: wordRunsGo fuel ((c :: cs).dropWhile javaWordChar)
    else wordRunsGo fuel cs

def wordRuns (cs : List Char) : List (List Char) := wordRunsGo cs.length cs

/-- `Integer.parseInt` on a digit run. -/
def digitsToNat (ds : List Char) : Nat :=
  ds.foldl (fun n c => 10 * n + (c.toNat - '0'.toNat)) 0

/-- The numbers the `PORT_PATTERN` matcher loop yields on a file's
content, in order. -/
def portTokens (content : List Char) : List Nat :=
  ((wordRuns content).filter
    (fun run => (run.length = 4 || run.length = 5) && run.all isDigitChar)).map
    digitsToNat

/-- The port filter inside `MissingIsolationDetector.detect`: the source
comment reads "Valid port range, excluding common year patterns" and the
condition is `port >= 1024 && port <= 65535 && port < 2100`. -/
def portFlagged (port : Nat) : Bool :=
  1024 ≤ port && port ≤ 65535 && port < 2100

/-- The bare numeric tokens of a test file's content that the detector
records as hardcoded ports. -/
def hardcodedPortsIn (content : String) : List Nat :=
  (portTokens content.toList).filter portFlagged

/-! ### TestFixturesOpportunityDetector

`CONSTRUCTOR_PATTERN = new\s+[A-Z][A-Za-z0-9_]*\s*\([^)]*\)`.  Each
character class of the pattern is disjoint from the literal that follows
it, so greedy matching is deterministic, and `[^)]*\)` ends every match
at the first `)` after the opening parenthesis. -/

/-- Attempts to match `CONSTRUCTOR_PATTERN` anchored at the head of the
sequence, returning the matched text and the remainder after it. -/
def tryMatchConstructor : List Char → Option (List Char × List Char)
  | 'n' :: 'e' :: 'w' :: rest =>
    let ws := rest.takeWhile javaSpace
    if ws.isEmpty then none
    else
      match rest.dropWhile javaSpace with
      | c :: rest2 =>
        if isUpperAZ c then
          let ident := rest2.takeWhile isIdentChar
          let afterIdent := rest2.dropWhile isIdentChar
          let ws2 := afterIdent.takeWhile javaSpace
          match afterIdent.dropWhile javaSpace with
          | '(' :: rest3 =>
            let inner := rest3.takeWhile (fun ch => ch != ')')
            match rest3.dropWhile (fun ch => ch != ')') with
            | ')' :: rest4 =>
              some ('n' :: 'e' :: 'w' :: ws ++ c :: ident ++ ws2
                      ++ '(' :: inner ++ [')'], rest4)
            | _ => none
          | _ => none
        else none
      | [] => none
  | _ => none

/-- The `while (matcher.find())` loop: leftmost matches, scanning resumes
after each match; fuel-driven (`fuel = length` suffices: each step
consumes at least one character). -/
def scanConstructorMatches : Nat → List Char → List (List Char)
  | 0, _ => []
  | _, [] => []
  | fuel + 1, c :: cs =>
    match tryMatchConstructor (c :: cs) with
    | some (m, rest) => m :: scanConstructorMatches fuel rest
    | none => scanConstructorMatches fuel cs

def constructorMatchesIn (content : List Char) : List (List Char) :=
  scanConstructorMatches content.length content

/-- `TestFixturesOpportunityDetector.extractParameters`: the text between
the first `(` and the last `)` of the matched call, trimmed; empty when
either parenthesis is missing. -/
def extractParameters (constructorCall : List Char) : List Char :=
  match constructorCall.findIdx? (fun c => c == '('),
      (constructorCall.reverse.findIdx? (fun c => c == ')')).map
        (fun i => constructorCall.length - 1 - i) with
  | some openParen, some closeParen =>
    seqTrim ((constructorCall.drop (openParen + 1)).take
      (closeParen - (openParen + 1)))
  | _, _ => []

/-- The comma-at-depth-zero counting loop of
`TestFixturesOpportunityDetector.countParameters` (starting from
`count = 1`, `depth = 0`). -/
def countParamsLoop (params : List Char) : Nat :=
  (params.foldl
    (fun (acc : Nat × Int) c =>
      if c = '(' then (acc.1, acc.2 + 1)
      else if c = ')' then (acc.1, acc.2 - 1)
      else if c = ',' ∧ acc.2 = 0 then (acc.1 + 1, acc.2)
      else acc)
    (1, 0)).1

/-- `TestFixturesOpportunityDetector.countParameters`. -/
def countParameters (params : List Char) : Nat :=
  if params.isEmpty then 0 else countParamsLoop params

/-- `TestFixturesOpportunityDetector.analyzeConstructorComplexity`:
maximum parameter count over all constructor matches whose extracted
parameter text is non-empty. -/
def analyzeConstructorComplexity (content : String) : Nat :=
  (constructorMatchesIn content.toList).foldl
    (fun maxParams m =>
      let params := extractParameters m
      if !params.isEmpty then max maxParams (countParameters params)
      else maxParams)
    0

/-- `depths.stream().average().orElse(0.0)`. -/
def averageDepth (depths : List Nat) : ℚ :=
  if depths.isEmpty then 0
  else (depths.map (fun d => (d : ℚ))).sum / depths.length

/-- The feedback record `TestFixturesOpportunityDetector.detect` builds;
`depthAvg` is kept as the exact rational the source would format with
`"%.1f"`. -/
structure FixturesFeedback where
  category : String
  severity : String
  title : String
  compilationMs : Int
  depthAvg : ℚ
  patternCount : Nat
deriving Repr, DecidableEq

/-- Embeds `TestFixturesOpportunityDetector.detect`: no test files means
no feedback; otherwise trigger unless
`compilationMs <= 2000 && avgDepth <= 3.0`.  Test files are given by
their contents (`Files.readString` of each discovered file). -/
def fixturesDetect (testFileContents : List String) (compilationMs : Int) :
    Option FixturesFeedback :=
  if testFileContents.isEmpty then none
  else
    let depths := testFileContents.map analyzeConstructorComplexity
    let avgDepth := averageDepth depths
    if compilationMs ≤ 2000 ∧ avgDepth ≤ 3 then none
    else
      some ⟨"test-fixtures-opportunity", "info",
            "Test-fixtures opportunity detected", compilationMs, avgDepth, 0⟩

/-! ### FileStructureAnalyzer

The walked project tree is modelled as a list of
(absolute path, content) pairs whose paths start with the project root;
`Files.walk` order is the list order.  Prose titles are reproduced,
prose message/recommendation builders are not. -/

/-- `p.toString().endsWith(".java") || p.toString().endsWith(".kt")`. -/
def isSourceFilePath (p : String) : Bool :=
  strEndsWithSub p ".java" || strEndsWithSub p ".kt"

/-- `path.getFileName().toString()`: the last `/`-separated component. -/
def fileNameOf (p : String) : String :=
  String.mk ((p.toList.reverse.takeWhile (fun c => c != '/')).reverse)

/-- `FileStructureAnalyzer.looksLikeTestFile`. -/
def looksLikeTestFile (p : String) : Bool :=
  strContainsSub (fileNameOf p) "Test" || strContainsSub (fileNameOf p) "Spec"

/-- `FileStructureAnalyzer.findTestsInProductionDirectory`: regular
source files under `/src/main/`, outside `/build/` and `/target/`, whose
file name looks like a test; relativized against the project root. -/
def findTestsInProductionDirectory (root : String)
    (files : List (String × String)) : List String :=
  (files.filter (fun f =>
      isSourceFilePath f.1 && strContainsSub f.1 "/src/main/" &&
      !(strContainsSub f.1 "/build/") && !(strContainsSub f.1 "/target/") &&
      looksLikeTestFile f.1)).map
    (fun f => relativizePath root f.1)

/-- `FileStructureAnalyzer.findTestFilesInTestDirectory`. -/
def findTestFilesInTestDirectory (files : List (String × String)) :
    List (String × String) :=
  files.filter (fun f =>
    isSourceFilePath f.1 && strContainsSub f.1 "/src/test/" &&
    !(strContainsSub f.1 "/build/") && !(strContainsSub f.1 "/target/"))

/-- `FileStructureAnalyzer.extractClassName`: the file name without its
`.java`/`.kt` extension, `null` otherwise. -/
def extractClassName (filename : String) : Option String :=
  if strEndsWithSub filename ".java" then
    some (String.mk (filename.toList.take (filename.toList.length - 5)))
  else if strEndsWithSub filename ".kt" then
    some (String.mk (filename.toList.take (filename.toList.length - 3)))
  else none

/-- The `[a-z0-9_.]` class of `PACKAGE_PATTERN`'s capture group tail. -/
def isPkgChar (c : Char) : Bool :=
  ('a' ≤ c && c ≤ 'z') || ('0' ≤ c && c ≤ '9') || c = '_' || c = '.'

/-- The suffixes of a character sequence that start right after a
newline (the non-initial anchor points of a `MULTILINE` `^`). -/
def lineStartsAux : List Char → List (List Char)
  | [] => []
  | '\n' :: rest => rest :: lineStartsAux rest
  | _ :: rest => lineStartsAux rest

/-- `PACKAGE_PATTERN = ^\s*package\s+([a-z][a-z0-9_.]*);` tried at one
anchor point: each class is disjoint from the literal that follows it,
so greedy matching is deterministic. -/
def parsePackageAt (cs : List Char) : Option String :=
  match cs.dropWhile javaSpace with
  | 'p' :: 'a' :: 'c' :: 'k' :: 'a' :: 'g' :: 'e' :: rest =>
    if (rest.takeWhile javaSpace).isEmpty then none
    else
      match rest.dropWhile javaSpace with
      | c :: rest2 =>
        if 'a' ≤ c && c ≤ 'z' then
          let identTail := rest2.takeWhile isPkgChar
          match rest2.dropWhile isPkgChar with
          | ';' :: _ => some (String.mk (c :: identTail))
          | _ => none
        else none
      | [] => none
  | _ => none

def firstSomeOf : List (Option String) → Option String
  | [] => none
  | some s :: _ => some s
  | none :: rest => firstSomeOf rest

/-- `FileStructureAnalyzer.extractPackage`: the first `MULTILINE` anchor
point, in order, at which `PACKAGE_PATTERN` matches. -/
def extractPackage (content : String) : Option String :=
  firstSomeOf ((content.toList :: lineStartsAux content.toList).map parsePackageAt)

/-- `FileStructureAnalyzer.containsTestAnnotations`. -/
def containsTestAnns (content : String) : Bool :=
  strContainsSub content "@Test" || strContainsSub content "@org.junit.Test" ||
  strContainsSub content "@org.junit.jupiter.api.Test"

/-- `FileStructureAnalyzer.findProductionPackage`: the first production
source file whose class name matches, read for its package declaration
(`Optional.ofNullable`). -/
def findProductionPackage (files : List (String × String))
    (className : String) : Option String :=
  let found := files.filter (fun f =>
    isSourceFilePath f.1 && strContainsSub f.1 "/src/main/" &&
    !(strContainsSub f.1 "/build/") && !(strContainsSub f.1 "/target/") &&
    (extractClassName (fileNameOf f.1) == some className))
  match found with
  | [] => none
  | f :: _ => extractPackage f.2

/-- Java `String.replace(target, "")` for a non-empty target: removes
occurrences left to right; fuel-driven (`fuel = length` suffices). -/
def removeAllSeq : Nat → List Char → List Char → List Char
  | 0, _, s => s
  | _, _, [] => []
  | fuel + 1, pat, c :: cs =>
    if seqLeading pat (c :: cs) then
      removeAllSeq fuel pat ((c :: cs).drop pat.length)
    else c :: removeAllSeq fuel pat cs

def removeAllSub (s pat : String) : String :=
  String.mk (removeAllSeq s.toList.length pat.toList s.toList)

/-- Java `String.replaceFirst("^Test", "")`. -/
def stripTestAtStart (s : String) : String :=
  if strStartsWithSub s "Test" then String.mk (s.toList.drop 4) else s

/-- One entry of `FileStructureAnalyzer.findPackageMismatches`'s result
map list. -/
structure PackageMismatch where
  testClass : String
  testPackage : String
  expectedPackage : String
deriving Repr, DecidableEq

/-- `FileStructureAnalyzer.findPackageMismatches`. -/
def findPackageMismatches (files : List (String × String)) :
    List PackageMismatch :=
  (findTestFilesInTestDirectory files).filterMap (fun f =>
    match extractPackage f.2, extractClassName (fileNameOf f.1) with
    | some testPackage, some className =>
      let expectedProductionClass :=
        stripTestAtStart (removeAllSub className "Test")
      if expectedProductionClass ≠ className then
        match findProductionPackage files expectedProductionClass with
        | some productionPackage =>
          if productionPackage ≠ testPackage then
            some ⟨className, testPackage, productionPackage⟩
          else none
        | none => none
      else none
    | _, _ => none)

/-- `FileStructureAnalyzer.findNamingViolations`. -/
def findNamingViolations (root : String) (files : List (String × String)) :
    List String :=
  (findTestFilesInTestDirectory files).filterMap (fun f =>
    match extractClassName (fileNameOf f.1) with
    | some className =>
      if containsTestAnns f.2 then
        if !(strEndsWithSub className "Test") &&
            !(strStartsWithSub className "Test") then
          some (relativizePath root f.1 ++ ": Class \x27" ++ className ++
            "\x27 contains test methods but lacks Test suffix or Test prefix")
        else none
      else none
    | none => none)

/-- `FileStructureAnalyzer.determineTitle`. -/
def determineTitle (testsInMain : List String)
    (packageMismatches : List PackageMismatch)
    (namingViolations : List String) : String :=
  if testsInMain ≠ [] then "Tests Found in Production Code Directory"
  else if packageMismatches ≠ [] then
    "Package Structure Inconsistencies Detected"
  else "Test Naming Convention Violations Detected"

/-- The feedback record `FileStructureAnalyzer.createFeedback` builds:
the three evidence lists, category `file-structure`, severity warning. -/
structure StructureFeedback where
  category : String
  severity : String
  title : String
  testsInMain : List String
  packageMismatches : List PackageMismatch
  namingViolations : List String
deriving Repr, DecidableEq

/-- Embeds `FileStructureAnalyzer.detect`: early return for
`testResults.summary.total == 0`, then the three checks; feedback only
when some list is non-empty. -/
def fileStructureDetect (total : Nat) (root : String)
    (files : List (String × String)) : Option StructureFeedback :=
  if total = 0 then none
  else
    let testsInMain := findTestsInProductionDirectory root files
    let packageMismatches := findPackageMismatches files
    let namingViolations := findNamingViolations root files
    if testsInMain = [] ∧ packageMismatches = [] ∧ namingViolations = [] then
      none
    else
      some ⟨"file-structure", "warning",
            determineTitle testsInMain packageMismatches namingViolations,
            testsInMain, packageMismatches, namingViolations⟩

end TddGuard

namespace TddGuard

/-- C1: for any outcome list whose statuses all lie in
{passed, failed, skipped}, the summary computed at write time has
`total` equal to the list length and `total = passed + failed + skipped`,
with each count the number of outcomes of that status. -/
theorem calculateSummary_invariant (tests : List TestCase)
    (h : ∀ t ∈ tests, t.status = "passed" ∨ t.status = "failed" ∨ t.status = "skipped") :
    (calculateSummary tests).total = tests.length ∧
    (calculateSummary tests).passed
      = (tests.filter (fun t => t.status == "passed")).length ∧
    (calculateSummary tests).failed
      = (tests.filter (fun t => t.status == "failed")).length ∧
    (calculateSummary tests).skipped
      = (tests.filter (fun t => t.status == "skipped")).length ∧
    (calculateSummary tests).total
      = (calculateSummary tests).passed + (calculateSummary tests).failed
        + (calculateSummary tests).skipped := by
  refine ⟨rfl, rfl, rfl, rfl, ?_⟩
  simp only [calculateSummary]
  induction tests with
  | nil => rfl
  | cons t ts ih =>
    have ht := h t (List.mem_cons_self t ts)
    have ih' := ih (fun x hx => h x (List.mem_cons_of_mem t hx))
    rcases ht with h1 | h1 | h1 <;>
      simp [List.filter_cons, h1] <;> omega

/-- Witness for C1 at a concrete three-outcome run. -/
theorem calculateSummary_invariant_witness :
    (calculateSummary
      [⟨"a", "fa", "passed", 3, "a"⟩, ⟨"b", "fb", "failed", 1, "b"⟩,
       ⟨"c", "fc", "skipped", 0, "c"⟩]).total = 3 ∧
    (calculateSummary
      [⟨"a", "fa", "passed", 3, "a"⟩, ⟨"b", "fb", "failed", 1, "b"⟩,
       ⟨"c", "fc", "skipped", 0, "c"⟩]).total
      = (calculateSummary
      [⟨"a", "fa", "passed", 3, "a"⟩, ⟨"b", "fb", "failed", 1, "b"⟩,
       ⟨"c", "fc", "skipped", 0, "c"⟩]).passed
        + (calculateSummary
      [⟨"a", "fa", "passed", 3, "a"⟩, ⟨"b", "fb", "failed", 1, "b"⟩,
       ⟨"c", "fc", "skipped", 0, "c"⟩]).failed
        + (calculateSummary
      [⟨"a", "fa", "passed", 3, "a"⟩, ⟨"b", "fb", "failed", 1, "b"⟩,
       ⟨"c", "fc", "skipped", 0, "c"⟩]).skipped := by
  have h := calculateSummary_invariant
    [⟨"a", "fa", "passed", 3, "a"⟩, ⟨"b", "fb", "failed", 1, "b"⟩,
     ⟨"c", "fc", "skipped", 0, "c"⟩]
    (by intro t ht; fin_cases ht <;> simp)
  exact ⟨h.1, h.2.2.2.2⟩

/-- C2 counterexample: when the serialization step inside the
try-with-resources raises, `write` propagates the exception and the
sibling temporary file remains on disk — refuting "for every call to
write, whether it returns successfully or fails with an exception, no
temporary file remains on disk afterward" at a concrete input. -/
theorem jsonWriterWrite_temp_remains_on_failure :
    (jsonWriterWrite [] "project/.claude/tdd-guard/data/test.json" false true).success
      = false ∧
    writerTempPath "project/.claude/tdd-guard/data/test.json"
      ∈ (jsonWriterWrite [] "project/.claude/tdd-guard/data/test.json" false true).fs := by
  constructor
  · rfl
  · simp [jsonWriterWrite, writerTempPath, addFile]

/-- A path is never equal to itself with `".tmp"` appended. -/
theorem ne_self_append_tmp (s : String) : s ≠ s ++ ".tmp" := by
  intro h
  have hlen := congrArg String.length h
  rw [String.length_append] at hlen
  have h4 : ".tmp".length = 4 := rfl
  omega

/-- Membership in `addFile`. -/
theorem mem_addFile {fs : FileSet} {p q : String} :
    q ∈ addFile fs p ↔ q = p ∨ q ∈ fs := by
  unfold addFile
  split
  · rename_i hp
    constructor
    · exact fun h => Or.inr h
    · rintro (rfl | h)
      · exact hp
      · exact h
  · simp [List.mem_cons]

/-- C2 amended: when `write` returns successfully, the final path exists
and the sibling temporary file does not remain on disk (the atomic move
consumed it); on a failed attempt the temporary file may remain. -/
theorem jsonWriterWrite_success_no_temp (fs : FileSet) (outputPath : String)
    (serOk moveOk : Bool)
    (h : (jsonWriterWrite fs outputPath serOk moveOk).success = true) :
    outputPath ∈ (jsonWriterWrite fs outputPath serOk moveOk).fs ∧
    writerTempPath outputPath ∉ (jsonWriterWrite fs outputPath serOk moveOk).fs := by
  cases serOk with
  | false => simp [jsonWriterWrite] at h
  | true =>
    cases moveOk with
    | false => simp [jsonWriterWrite] at h
    | true =>
      have hne : outputPath ≠ writerTempPath outputPath := ne_self_append_tmp outputPath
      have hfs : (jsonWriterWrite fs outputPath true true).fs
          = addFile
              (removeFile (addFile fs (writerTempPath outputPath)) (writerTempPath outputPath))
              outputPath := rfl
      rw [hfs]
      constructor
      · rw [mem_addFile]
        exact Or.inl rfl
      · rw [mem_addFile]
        rintro (h1 | h1)
        · exact hne h1.symm
        · simp [removeFile, List.mem_filter] at h1

/-- Witness for C2's amended theorem at a successful concrete write. -/
theorem jsonWriterWrite_success_no_temp_witness :
    "out/test.json" ∈ (jsonWriterWrite [] "out/test.json" true true).fs ∧
    writerTempPath "out/test.json" ∉ (jsonWriterWrite [] "out/test.json" true true).fs :=
  jsonWriterWrite_success_no_temp [] "out/test.json" true true rfl

/-- C3 counterexample: a finish event whose mapped status is "failed" but
whose `TestExecutionResult` carries no throwable records the failed
outcome yet appends no `Failure`, refuting "for every recordFinish call
whose mapped status is failed, exactly one Failure is appended". -/
theorem recordTestFinish_failed_without_throwable_cex :
    mapStatus (TestExecutionResult.mk .FAILED none).status = "failed" ∧
    (recordTestFinish ⟨"/proj", [], [], fun _ => false⟩ ⟨[], [], []⟩
        ⟨true, "[test:example]", "example()", none⟩
        ⟨.FAILED, none⟩ 0).tests.length = 1 ∧
    (recordTestFinish ⟨"/proj", [], [], fun _ => false⟩ ⟨[], [], []⟩
        ⟨true, "[test:example]", "example()", none⟩
        ⟨.FAILED, none⟩ 0).failures = [] := by
  refine ⟨rfl, ?_, ?_⟩ <;> rfl

/-- C3 amended: on a finish event for an individual test, a `Failure` is
appended exactly when the mapped status is "failed" and the result
carries an error object — then exactly one, alongside the failed outcome,
with message taken from the error's message and falling back to the
error's simple type name when the message is absent; for a failed result
without an error object, and for any passed or skipped outcome, the
failure list is unchanged. -/
theorem recordTestFinish_failure_rules (env : ResolverEnv) (st : CollectorState)
    (test : TestIdentifier) (result : TestExecutionResult) (now : Int)
    (hT : test.isTest = true) :
    (mapStatus result.status = "failed" →
      (∀ tb, result.throwable = some tb →
        (recordTestFinish env st test result now).failures
          = st.failures ++
            [⟨extractMethodName test, extractFilePath env test,
              (match tb.message with
               | some m => m
               | none => tb.simpleName), tb.stackTraceText⟩] ∧
        (recordTestFinish env st test result now).failures.length
          = st.failures.length + 1 ∧
        (recordTestFinish env st test result now).tests
          = st.tests ++
            [⟨extractMethodName test, extractFilePath env test, "failed",
              now - mapGetOrDefault st.testStartTimes test.uniqueId now,
              test.displayName⟩]) ∧
      (result.throwable = none →
        (recordTestFinish env st test result now).failures = st.failures)) ∧
    (mapStatus result.status ≠ "failed" →
      (recordTestFinish env st test result now).failures = st.failures) := by
  obtain ⟨status, throwable⟩ := result
  refine ⟨fun hF => ⟨fun tb htb => ?_, fun htb => ?_⟩, fun hF => ?_⟩
  · subst htb
    cases status with
    | FAILED =>
      refine ⟨?_, ?_, ?_⟩ <;> simp [recordTestFinish, hT, mapStatus]
    | SUCCESSFUL => simp [mapStatus] at hF
    | ABORTED => simp [mapStatus] at hF
  · subst htb
    cases status with
    | FAILED => simp [recordTestFinish, hT, mapStatus]
    | SUCCESSFUL => simp [mapStatus] at hF
    | ABORTED => simp [mapStatus] at hF
  · cases status with
    | FAILED => exact absurd rfl hF
    | SUCCESSFUL => cases throwable <;> simp [recordTestFinish, hT, mapStatus]
    | ABORTED => cases throwable <;> simp [recordTestFinish, hT, mapStatus]

/-- Witness for C3's amended theorem: a failed result whose throwable has
no message appends exactly one failure, with the simple type name as its
message. -/
theorem recordTestFinish_failure_rules_witness :
    (recordTestFinish ⟨"/proj", [], [], fun _ => false⟩ ⟨[], [], []⟩
        ⟨true, "[test:example]", "example()", none⟩
        ⟨.FAILED, some ⟨none, "AssertionError", "trace"⟩⟩ 5).failures
      = [⟨"example()", "", "AssertionError", "trace"⟩] ∧
    (recordTestFinish ⟨"/proj", [], [], fun _ => false⟩ ⟨[], [], []⟩
        ⟨true, "[test:example]", "example()", none⟩
        ⟨.SUCCESSFUL, none⟩ 5).failures = [] := by
  constructor
  · have h := (recordTestFinish_failure_rules ⟨"/proj", [], [], fun _ => false⟩
      ⟨[], [], []⟩ ⟨true, "[test:example]", "example()", none⟩
      ⟨.FAILED, some ⟨none, "AssertionError", "trace"⟩⟩ 5 rfl).1
    exact ((h rfl).1 ⟨none, "AssertionError", "trace"⟩ rfl).1
  · have h := (recordTestFinish_failure_rules ⟨"/proj", [], [], fun _ => false⟩
      ⟨[], [], []⟩ ⟨true, "[test:example]", "example()", none⟩
      ⟨.SUCCESSFUL, none⟩ 5 rfl).2
    exact h (by simp [mapStatus])

/-- The directory loop returns the first candidate whose resolved path
exists, as a `find?`. -/
theorem tryDirectories_eq_find (env : ResolverEnv) (rel : String)
    (dirs : List String) :
    tryDirectories env rel dirs
      = (dirs.find?
          (fun d => env.fileExistsAt (resolvePath (resolvePath env.projectRoot d) rel))).map
          (fun d => d ++ "/" ++ rel) := by
  induction dirs with
  | nil => rfl
  | cons d rest ih =>
    by_cases hEx : env.fileExistsAt (resolvePath (resolvePath env.projectRoot d) rel)
      <;> simp [tryDirectories, List.find?, hEx, ih]

/-- The candidate directory list is never empty: the built-in defaults
substitute for an empty configuration. -/
theorem effectiveDirectories_ne_nil (env : ResolverEnv) (b : Bool) :
    effectiveDirectories env b ≠ [] := by
  cases b with
  | false =>
    cases h : env.mainSourceDirs with
    | nil => simp [effectiveDirectories, h]
    | cons x xs => simp [effectiveDirectories, h]
  | true =>
    cases h : env.testSourceDirs with
    | nil => simp [effectiveDirectories, h]
    | cons x xs => simp [effectiveDirectories, h]

/-- C9: for every class-style identifier the computed candidate list is
non-empty and `classNameToFilePath` returns the first candidate directory
(in configured order) whose computed nested path exists, or, when none
exists, the first candidate directory joined with the computed path; the
function is total, so the operation never raises. -/
theorem classNameToFilePath_follows_spec (env : ResolverEnv) (className : String) :
    effectiveDirectories env
        (strEndsWithSub className "Test" || strEndsWithSub className "Tests") ≠ [] ∧
    classNameToFilePath env className
      = specPathLookup env
          (effectiveDirectories env
            (strEndsWithSub className "Test" || strEndsWithSub className "Tests"))
          (classNameToRelativePath className) := by
  refine ⟨effectiveDirectories_ne_nil env _, ?_⟩
  simp only [classNameToFilePath, specPathLookup, tryDirectories_eq_find]
  cases hf : (effectiveDirectories env
      (strEndsWithSub className "Test" || strEndsWithSub className "Tests")).find?
      (fun d => env.fileExistsAt
        (resolvePath (resolvePath env.projectRoot d)
          (classNameToRelativePath className))) with
  | some d => simp
  | none =>
    cases hd : effectiveDirectories env
        (strEndsWithSub className "Test" || strEndsWithSub className "Tests") with
    | nil => exact absurd hd (effectiveDirectories_ne_nil env _)
    | cons d rest => simp [List.headD]

/-- C10: lifecycle events whose identifier is not an individual test
(container or suite nodes) leave the collector state — outcome list,
failure list and start-time map — entirely unchanged. -/
theorem container_events_no_effect (env : ResolverEnv) (st : CollectorState)
    (test : TestIdentifier) (result : TestExecutionResult) (now : Int)
    (reason : String) (h : test.isTest = false) :
    recordTestStart st test now = st ∧
    recordTestFinish env st test result now = st ∧
    recordSkipped env st test reason = st := by
  refine ⟨?_, ?_, ?_⟩ <;> simp [recordTestStart, recordTestFinish, recordSkipped, h]

/-- Helper: the average of `[1000, 1500, 1000]`. -/
theorem buildAverage_1500 : buildAverage [1000, 1500, 1000] = 3500 / 3 := by
  norm_num [buildAverage, List.sum_cons, List.sum_nil]

/-- Helper: the average of `[1000, 1050, 1000]`. -/
theorem buildAverage_1050 : buildAverage [1000, 1050, 1000] = 3050 / 3 := by
  norm_num [buildAverage, List.sum_cons, List.sum_nil]

/-- Helper: the variance percentage of `[1000, 1500, 1000]` is
`200/7 ≈ 28.57`. -/
theorem variance_1500_eq : variancePercentOf [1000, 1500, 1000] = 200 / 7 := by
  unfold variancePercentOf calculateVariancePercent
  rw [buildAverage_1500]
  simp only [List.map_cons, List.map_nil, List.foldr_cons, List.foldr_nil]
  simp only
    [show |(1000 : ℚ) - 3500 / 3| = 500 / 3 from by
      rw [abs_of_nonpos (by norm_num)]; norm_num,
     show |(1500 : ℚ) - 3500 / 3| = 1000 / 3 from by
      rw [abs_of_nonneg (by norm_num)]; norm_num]
  rw [show max ((500 : ℚ) / 3) 0 = 500 / 3 from max_eq_left (by norm_num),
      show max ((1000 : ℚ) / 3) ((500 : ℚ) / 3) = 1000 / 3 from
        max_eq_left (by norm_num),
      show max ((500 : ℚ) / 3) ((1000 : ℚ) / 3) = 1000 / 3 from
        max_eq_right (by norm_num)]
  norm_num

/-- Helper: the variance percentage of `[1000, 1050, 1000]` is
`200/61 ≈ 3.28`. -/
theorem variance_1050_eq : variancePercentOf [1000, 1050, 1000] = 200 / 61 := by
  unfold variancePercentOf calculateVariancePercent
  rw [buildAverage_1050]
  simp only [List.map_cons, List.map_nil, List.foldr_cons, List.foldr_nil]
  simp only
    [show |(1000 : ℚ) - 3050 / 3| = 50 / 3 from by
      rw [abs_of_nonpos (by norm_num)]; norm_num,
     show |(1050 : ℚ) - 3050 / 3| = 100 / 3 from by
      rw [abs_of_nonneg (by norm_num)]; norm_num]
  rw [show max ((50 : ℚ) / 3) 0 = 50 / 3 from max_eq_left (by norm_num),
      show max ((100 : ℚ) / 3) ((50 : ℚ) / 3) = 100 / 3 from
        max_eq_left (by norm_num),
      show max ((50 : ℚ) / 3) ((100 : ℚ) / 3) = 100 / 3 from
        max_eq_right (by norm_num)]
  norm_num

/-- C4 counterexample: the claim attributes variance ≈4.76% to the
history `[1000, 1050, 1000]`, reading ≈ as agreement to the printed two
decimals (within 0.05); the detector's formula gives `200/61 ≈ 3.28%`,
which is not within 0.05 of 4.76. -/
theorem gradleVariance_not_4_76_cex :
    variancePercentOf [1000, 1050, 1000] = 200 / 61 ∧
    ¬ |variancePercentOf [1000, 1050, 1000] - 476 / 100| < 5 / 100 := by
  refine ⟨variance_1050_eq, ?_⟩
  rw [variance_1050_eq, abs_of_nonpos (by norm_num)]
  norm_num

/-- C4 amended: histories shorter than 3 entries never produce feedback;
for histories of 3 or more entries feedback is produced exactly when
`variance% = (max |t - mean| / mean) * 100` exceeds 20 (Java doubles
modelled over ℚ; the `0/0 = NaN` corner of an all-zero history is outside
this model); `[1000, 1500, 1000]` yields `200/7 ≈ 28.57%` and produces
feedback, `[1000, 1050, 1000]` yields `200/61 ≈ 3.28%` and produces
none. -/
theorem gradleDetect_amended :
    (∀ (times : List ℚ) (root : String) (files : List (String × String)),
        times.length < 3 → gradleDetect times root files = none) ∧
    (∀ (times : List ℚ) (root : String) (files : List (String × String)),
        3 ≤ times.length →
          ((gradleDetect times root files).isSome = true ↔
            20 < variancePercentOf times)) ∧
    variancePercentOf [1000, 1500, 1000] = 200 / 7 ∧
    (gradleDetect [1000, 1500, 1000] "/proj" []).isSome = true ∧
    variancePercentOf [1000, 1050, 1000] = 200 / 61 ∧
    gradleDetect [1000, 1050, 1000] "/proj" [] = none := by
  have hshort : ∀ (times : List ℚ) (root : String)
      (files : List (String × String)),
      times.length < 3 → gradleDetect times root files = none := by
    intro times root files h
    simp only [gradleDetect]
    rw [if_pos h]
  have hiff : ∀ (times : List ℚ) (root : String)
      (files : List (String × String)),
      3 ≤ times.length →
        ((gradleDetect times root files).isSome = true ↔
          20 < variancePercentOf times) := by
    intro times root files h3
    have hlen : ¬ times.length < 3 := by omega
    simp only [gradleDetect]
    rw [if_neg hlen]
    by_cases hv : calculateVariancePercent times (buildAverage times) ≤ 20
    · rw [if_pos hv]
      simp only [Option.isSome_none, Bool.false_eq_true, false_iff, not_lt,
        variancePercentOf]
      exact hv
    · rw [if_neg hv]
      simp only [Option.isSome_some, variancePercentOf, true_iff]
      exact lt_of_not_le hv
  refine ⟨hshort, hiff, variance_1500_eq, ?_, variance_1050_eq, ?_⟩
  · rw [hiff [1000, 1500, 1000] "/proj" [] (by norm_num), variance_1500_eq]
    norm_num
  · simp only [gradleDetect]
    rw [if_neg (by norm_num), if_pos]
    have : calculateVariancePercent [1000, 1050, 1000]
        (buildAverage [1000, 1050, 1000]) = 200 / 61 := variance_1050_eq
    rw [this]
    norm_num

/-- Witness for C4's amended theorem at concrete inputs. -/
theorem gradleDetect_amended_witness :
    gradleDetect [1000, 1500] "/p" [] = none ∧
    ((gradleDetect [5, 5, 5] "/p" []).isSome = true ↔
      20 < variancePercentOf [5, 5, 5]) :=
  ⟨gradleDetect_amended.1 [1000, 1500] "/p" [] (by norm_num),
   gradleDetect_amended.2.1 [5, 5, 5] "/p" [] (by norm_num)⟩

/-- Helper: two-decimal rendering of the ratio 50/20. -/
theorem twoDecimalString_50_20 :
    twoDecimalString (((50 : Nat) : ℚ) / ((20 : Nat) : ℚ)) = "2.50" := by
  unfold twoDecimalString
  have h : ((50 : Nat) : ℚ) / ((20 : Nat) : ℚ) * 100 + 1 / 2 = 501 / 2 := by
    push_cast
    norm_num
  rw [h]
  have hfloor : ⌊(501 : ℚ) / 2⌋ = 250 := by norm_num
  rw [hfloor]
  rfl

set_option maxRecDepth 16384 in
/-- C5: `MockOveruseDetector.detect` gives no feedback when the
snapshot's total test count is 0; otherwise, with
`ratio = mockCount / testCount`, it gives feedback exactly when
`ratio > 2.0` or at least one value-object-typed mock was found; 50
`@Mock` declarations across 20 tests trigger with evidence ratio "2.50",
while 30 across 20 (ratio 1.5) with no value-object-typed mocks do not
trigger. -/
theorem mockOveruseDetect_matches_claim :
    (∀ (root : String) (files : List (String × String)),
        mockOveruseDetect root files 0 = none) ∧
    (∀ (root : String) (files : List (String × String)) (total : Nat),
        total ≠ 0 →
        ((mockOveruseDetect root files total).isSome = true ↔
          2 < ((mockScanOf root files).1 : ℚ) / (total : ℚ) ∨
            (mockScanOf root files).2.1 ≠ [])) ∧
    (∃ fb, mockOveruseDetect "/proj"
        [("/proj/src/test/java/Test1.java", mockLines 25),
         ("/proj/src/test/java/Test2.java", mockLines 25)] 20 = some fb ∧
        fb.ratio = "2.50" ∧ fb.mockCount = 50 ∧ fb.severity = "warning") ∧
    mockOveruseDetect "/proj"
        [("/proj/src/test/java/Test1.java", mockLines 15),
         ("/proj/src/test/java/Test2.java", mockLines 15)] 20 = none := by
  refine ⟨?_, ?_, ?_, ?_⟩
  · intro root files
    simp [mockOveruseDetect]
  · intro root files total ht
    simp only [mockOveruseDetect]
    rw [if_neg ht]
    by_cases h : 2 < ((mockScanOf root files).1 : ℚ) / (total : ℚ) ∨
        (mockScanOf root files).2.1 ≠ []
    · have hneg : ¬(((mockScanOf root files).1 : ℚ) / (total : ℚ) ≤ 2 ∧
          (mockScanOf root files).2.1 = []) := by
        rcases h with h | h
        · exact fun hc => absurd h (not_lt.mpr hc.1)
        · exact fun hc => h hc.2
      rw [if_neg hneg]
      simp only [Option.isSome_some, true_iff]
      exact h
    · push_neg at h
      rw [if_pos h]
      simp only [Option.isSome_none, Bool.false_eq_true, false_iff]
      push_neg
      exact h
  · have hscan : mockScanOf "/proj"
        [("/proj/src/test/java/Test1.java", mockLines 25),
         ("/proj/src/test/java/Test2.java", mockLines 25)]
        = (50, [], none) := by rfl
    refine ⟨⟨"mock-overuse", "warning", "High mock usage detected", 50, 20,
        twoDecimalString (((50 : Nat) : ℚ) / ((20 : Nat) : ℚ)), [], none⟩,
      ?_, twoDecimalString_50_20, rfl, rfl⟩
    simp only [mockOveruseDetect, hscan]
    norm_num
  · have hscan : mockScanOf "/proj"
        [("/proj/src/test/java/Test1.java", mockLines 15),
         ("/proj/src/test/java/Test2.java", mockLines 15)]
        = (30, [], none) := by rfl
    simp only [mockOveruseDetect, hscan]
    norm_num

/-- Witness for C5's theorem at concrete inputs. -/
theorem mockOveruseDetect_matches_claim_witness :
    mockOveruseDetect "/p" [] 0 = none ∧
    ((mockOveruseDetect "/p" [] 5).isSome = true ↔
      2 < ((mockScanOf "/p" []).1 : ℚ) / ((5 : Nat) : ℚ) ∨
        (mockScanOf "/p" []).2.1 ≠ []) :=
  ⟨mockOveruseDetect_matches_claim.1 "/p" [],
   mockOveruseDetect_matches_claim.2.1 "/p" [] 5 (by norm_num)⟩

/-- C6: evaluating the detector's port scan at the failing input — the
bare 4-digit year tokens 2024 and 1999 are flagged as hardcoded ports
(the filter keeps exactly 1024..2099), while the real registered port
8080 is not flagged, contradicting the source's own comment "Valid port
range, excluding common year patterns" and the claim that no 4-digit
year is ever flagged. -/
theorem portScan_flags_years :
    hardcodedPortsIn "int year = 2024; int other = 1999; serverPort(8080);"
      = [2024, 1999] ∧
    portFlagged 2024 = true ∧ portFlagged 1999 = true ∧
    portFlagged 8080 = false :=
  ⟨rfl, rfl, rfl, rfl⟩

/-- C7 counterexample: on `new A(new B(x, y), z)` the detector computes
a maximum argument count of 1, not the 2 the claim states: the
constructor regex ends each match at the first closing parenthesis, so
the match is `new A(new B(x, y)` and its single top-level comma sits at
nesting depth 1. -/
theorem constructorComplexity_nested_cex :
    analyzeConstructorComplexity "new A(new B(x, y), z)" = 1 ∧
    analyzeConstructorComplexity "new A(new B(x, y), z)" ≠ 2 :=
  ⟨rfl, by decide⟩

/-- C7 amended: with no test files there is no feedback; with at least
one test file, feedback is produced exactly when `compilationMs > 2000`
or the average maximum argument count exceeds 3.0; the per-expression
count ignores commas nested inside parentheses but, because each regex
match ends at the first closing parenthesis, `new A(new B(x, y), z)`
counts 1 argument (not 2), while the unnested
`new Service(repo, cache, logger, metrics)` counts 4. -/
theorem fixturesDetect_amended :
    (∀ comp : Int, fixturesDetect [] comp = none) ∧
    (∀ (contents : List String) (comp : Int), contents ≠ [] →
        ((fixturesDetect contents comp).isSome = true ↔
          ¬(comp ≤ 2000 ∧
            averageDepth (contents.map analyzeConstructorComplexity) ≤ 3))) ∧
    analyzeConstructorComplexity "new A(new B(x, y), z)" = 1 ∧
    analyzeConstructorComplexity "new Service(repo, cache, logger, metrics)"
      = 4 := by
  refine ⟨?_, ?_, rfl, rfl⟩
  · intro comp
    simp [fixturesDetect]
  · intro contents comp h
    cases contents with
    | nil => exact absurd rfl h
    | cons a l =>
      simp only [fixturesDetect, List.isEmpty_cons, Bool.false_eq_true,
        if_false]
      by_cases hc : comp ≤ 2000 ∧
          averageDepth ((a :: l).map analyzeConstructorComplexity) ≤ 3
      · rw [if_pos hc]
        simp only [Option.isSome_none, Bool.false_eq_true, false_iff]
        exact fun hn => hn hc
      · rw [if_neg hc]
        simp only [Option.isSome_some, true_iff]
        exact hc

/-- Witness for C7's amended theorem at concrete inputs. -/
theorem fixturesDetect_amended_witness :
    fixturesDetect [] 0 = none ∧
    ((fixturesDetect ["new A(x)"] 2500).isSome = true ↔
      ¬((2500 : Int) ≤ 2000 ∧
        averageDepth (["new A(x)"].map analyzeConstructorComplexity) ≤ 3)) :=
  ⟨fixturesDetect_amended.1 0,
   fixturesDetect_amended.2.1 ["new A(x)"] 2500 (by simp)⟩

/-- C8 counterexample: a project holding exactly one test-named file
under a production directory is reported by the tests-in-main check, yet
when the snapshot's summary.total is 0 `detect` returns no feedback at
all (the early return for empty projects), refuting "always
reported". -/
theorem fileStructureDetect_zero_total_cex :
    findTestsInProductionDirectory "/proj"
        [("/proj/src/main/java/com/example/FooTest.java", "package com.example;")]
      = ["src/main/java/com/example/FooTest.java"] ∧
    fileStructureDetect 0 "/proj"
        [("/proj/src/main/java/com/example/FooTest.java", "package com.example;")]
      = none :=
  ⟨rfl, rfl⟩

/-- C8 amended: provided the snapshot records at least one test outcome
(`summary.total ≠ 0`), whenever at least one test-marker-named source
file lives under a production directory the detector reports it, with
the `testsInMain` evidence equal to the computed list (so exactly one
entry for exactly one such file); with a clean structure the list is
empty and — when the other two checks are also clean — no feedback is
produced. -/
theorem fileStructureDetect_reports (total : Nat) (root : String)
    (files : List (String × String)) (htotal : total ≠ 0) :
    (findTestsInProductionDirectory root files ≠ [] →
      ∃ fb, fileStructureDetect total root files = some fb ∧
        fb.testsInMain = findTestsInProductionDirectory root files ∧
        fb.severity = "warning" ∧
        fb.title = "Tests Found in Production Code Directory") ∧
    (findTestsInProductionDirectory root files = [] ∧
        findPackageMismatches files = [] ∧
        findNamingViolations root files = [] →
      fileStructureDetect total root files = none) := by
  constructor
  · intro hne
    simp only [fileStructureDetect]
    rw [if_neg htotal, if_neg (by simp [hne])]
    refine ⟨_, rfl, rfl, rfl, ?_⟩
    simp only [determineTitle]
    rw [if_pos hne]
  · rintro ⟨h1, h2, h3⟩
    simp only [fileStructureDetect]
    rw [if_neg htotal, if_pos ⟨h1, h2, h3⟩]

/-- Witness for C8's amended theorem: exactly one offending file yields
exactly one `testsInMain` entry. -/
theorem fileStructureDetect_reports_witness :
    ∃ fb, fileStructureDetect 1 "/proj"
        [("/proj/src/main/java/com/example/FooTest.java", "package com.example;")]
      = some fb ∧
      fb.testsInMain = ["src/main/java/com/example/FooTest.java"] ∧
      fb.severity = "warning" := by
  obtain ⟨fb, h1, h2, h3, h4⟩ :=
    (fileStructureDetect_reports 1 "/proj"
      [("/proj/src/main/java/com/example/FooTest.java", "package com.example;")]
      (by decide)).1 (by decide)
  exact ⟨fb, h1, h2.trans (by rfl), h3⟩

/-- Witness for C10 at a concrete container identifier. -/
theorem container_events_no_effect_witness :
    recordTestStart ⟨[], [], []⟩ ⟨false, "[engine:junit-jupiter]", "JUnit Jupiter", none⟩ 7
      = ⟨[], [], []⟩ ∧
    recordTestFinish ⟨"/proj", [], [], fun _ => false⟩ ⟨[], [], []⟩
        ⟨false, "[engine:junit-jupiter]", "JUnit Jupiter", none⟩ ⟨.SUCCESSFUL, none⟩ 7
      = ⟨[], [], []⟩ ∧
    recordSkipped ⟨"/proj", [], [], fun _ => false⟩ ⟨[], [], []⟩
        ⟨false, "[engine:junit-jupiter]", "JUnit Jupiter", none⟩ "disabled"
      = ⟨[], [], []⟩ :=
  container_events_no_effect ⟨"/proj", [], [], fun _ => false⟩ ⟨[], [], []⟩
    ⟨false, "[engine:junit-jupiter]", "JUnit Jupiter", none⟩ ⟨.SUCCESSFUL, none⟩ 7
    "disabled" rfl

end TddGuard
